import Mathlib

/-
Verification development for the fossbox sandboxed-execution CLI
(src/fossbox/cli.py).  The `run` subcommand is shallowly embedded below:
external effects (capability probe, child exit code, glob expansion,
directory removal) are inputs collected in a `World`, and the observable
behaviour of one invocation (final exit outcome, workspace state, emitted
status messages, destination-directory contents, reported copy count) is
the `RunResult` computed by `run`.  Filesystem and process primitives are
treated as already-correct system calls; their outcomes are the `World`
fields.
-/

namespace Fossbox

/-- Truncation toward zero of a rational number: the value produced by the
Python built-in int() when applied to a (here rational-modelled) float. -/
def pyInt (q : ℚ) : Int := Int.tdiv q.num (q.den : Int)

/-- Embedding of `_cpu_quota_from_cpus` (cli.py): the f-string
f"{int(cpus * 100)}%", i.e. multiply by 100, truncate to an integer,
append a percent sign.  The float argument is modelled as a rational. -/
def cpu_quota_from_cpus (cpus : ℚ) : String := toString (pyInt (cpus * 100)) ++ "%"

/-- Splitting a character list at every occurrence of a separator, the
semantics of Python str.split with a one-character separator: splitting
the empty list yields one empty group. -/
def splitOnChar (sep : Char) : List Char → List (List Char)
  | [] => [[]]
  | c :: rest =>
    match splitOnChar sep rest with
    | [] => if c = sep then [[], []] else [[c]]
    | g :: gs => if c = sep then [] :: g :: gs else (c :: g) :: gs

/-- Whitespace characters stripped by Python str.strip (ASCII subset). -/
def isPySpace (c : Char) : Bool :=
  c = ' ' || c = '\t' || c = '\n' || c = '\r' || c = '\x0b' || c = '\x0c'

/-- Python str.strip: drop leading and trailing whitespace. -/
def pyStrip (cs : List Char) : List Char :=
  ((cs.dropWhile isPySpace).reverse.dropWhile isPySpace).reverse

/-- Embedding of the pattern-list computation in `run` (cli.py):
patterns = [p.strip() for p in (save.split(",") if save else []) if p.strip()]. -/
def parsePatterns (save : String) : List String :=
  ((if save = "" then [] else splitOnChar ',' save.toList).map
      (fun g => String.mk (pyStrip g))).filter (fun p => p ≠ "")

/-- Kind of a directory entry produced by glob expansion, as relevant to
the harvest loop.  It distinguishes symbolic links by what they resolve
to, because pathlib Path.is_file follows symbolic links. -/
inductive EntryKind
  | regularFile
  | symlinkToRegularFile
  | symlinkToDirectory
  | brokenSymlink
  | directory
  | specialFile
deriving DecidableEq

/-- Embedding of pathlib Path.is_file, as called on each glob match in
`run` (cli.py): true for a regular file, and also for a symbolic link
that resolves to a regular file (Path.is_file follows symbolic links);
false for directories, special files and other or broken links. -/
def EntryKind.is_file : EntryKind → Bool
  | .regularFile => true
  | .symlinkToRegularFile => true
  | _ => false

/-- One glob match inside the workspace.  pathlib guarantees
name = stem ++ suffix, so the two parts are the primitive data here.
`readable` records whether shutil.copy2 on this source succeeds, and
`content` is an abstract tag for the bytes that a copy would write. -/
structure FsMatch where
  stem : String
  suffix : String
  kind : EntryKind
  readable : Bool
  content : Nat
deriving DecidableEq

/-- Base name of a match: pathlib Path.name = stem + suffix. -/
def FsMatch.name (m : FsMatch) : String := m.stem ++ m.suffix

/-- The disambiguated destination name built in `run` (cli.py):
the f-string f"{src.stem}-{run_id}{src.suffix}". -/
def FsMatch.altName (m : FsMatch) (runId : String) : String :=
  m.stem ++ "-" ++ runId ++ m.suffix

/-- Contents of the destination directory: an association of file names to
abstract content tags. -/
abbrev DestState := List (String × Nat)

/-- Embedding of Path.exists on a destination name. -/
def destExists (d : DestState) (nm : String) : Bool := d.any (fun e => e.1 == nm)

/-- Effect of shutil.copy2 writing `c` under name `nm`: creates the file or
silently replaces an existing file of that name. -/
def destWrite (d : DestState) (nm : String) (c : Nat) : DestState :=
  (nm, c) :: d.filter (fun e => e.1 ≠ nm)

/-- Content stored in the destination under a name, when present. -/
def destLookup (d : DestState) (nm : String) : Option Nat :=
  (d.find? (fun e => e.1 == nm)).map (fun e => e.2)

/-- Embedding of the inner harvest loop of `run` (cli.py), over the matches
of one pattern: threads the destination state and the copied counter; the
Boolean is false when shutil.copy2 raised (an exception escaping the loop),
in which case the remaining matches are not visited. -/
def copyMatches (runId : String) : List FsMatch → DestState → Nat → DestState × Nat × Bool
  | [], d, n => (d, n, true)
  | m :: ms, d, n =>
    if m.kind.is_file then
      let tgt := if destExists d m.name then m.altName runId else m.name
      if m.readable then copyMatches runId ms (destWrite d tgt m.content) (n + 1)
      else (d, n, false)
    else copyMatches runId ms d n

/-- Embedding of the outer harvest loop of `run` (cli.py): each pattern is
expanded by glob.glob (the `globs` oracle) and its matches are copied; a
copy failure aborts the remaining work, as the uncaught exception does. -/
def harvest (runId : String) (globs : String → List FsMatch) :
    List String → DestState → Nat → DestState × Nat × Bool
  | [], d, n => (d, n, true)
  | p :: ps, d, n =>
    match copyMatches runId (globs p) d n with
    | (d2, n2, true) => harvest runId globs ps d2 n2
    | (d2, n2, false) => (d2, n2, false)

/-- The three launch strategies of `run` (cli.py). -/
inductive LaunchMode
  | direct
  | scoped
  | serviced
deriving DecidableEq

/-- Options of one `run` invocation, mirroring the typer options plus the
command vector collected after the double dash. -/
structure Options where
  cmd : List String
  cpus : ℚ
  ram : String
  timeout : Int
  tmpfs : String
  save : String

/-- Launch plan assembled by `run` (cli.py): the command vector handed to
subprocess.run, the cwd argument, the TMPDIR value of the env argument
(none when env is not overridden), and the selected mode. -/
structure LaunchPlan where
  fullCmd : List String
  cwd : Option String
  envTMPDIR : Option String
  mode : LaunchMode
deriving DecidableEq

/-- Embedding of the plan-assembly section of `run` (cli.py, the
use_systemd and tmpfs branching): builds full_cmd, use_cwd, use_env and
the launch mode for the three strategies. -/
def buildPlan (o : Options) (useSystemd : Bool) (runId workDir : String) : LaunchPlan :=
  let cpuQuota := cpu_quota_from_cpus o.cpus
  if useSystemd ∧ o.tmpfs ≠ "" then
    { fullCmd :=
        ["systemd-run", "--user", "--unit", "fossbox-" ++ runId, "--wait", "--collect",
          "-p", "MemoryMax=" ++ o.ram,
          "-p", "CPUQuota=" ++ cpuQuota,
          "-p", "PrivateTmp=yes",
          "-p", "TemporaryFileSystem=/tmp:rw,size=" ++ o.tmpfs,
          "-p", "WorkingDirectory=" ++ workDir,
          "-p", "Environment=TMPDIR=/tmp"]
        ++ (if 0 < o.timeout then ["-p", "RuntimeMaxSec=" ++ toString o.timeout] else [])
        ++ ["--"] ++ o.cmd,
      cwd := none, envTMPDIR := none, mode := .serviced }
  else if useSystemd then
    { fullCmd :=
        ["systemd-run", "--user", "--scope",
          "-p", "MemoryMax=" ++ o.ram,
          "-p", "CPUQuota=" ++ cpuQuota]
        ++ (if o.timeout ≠ 0 ∧ 0 < o.timeout then ["-p", "RuntimeMaxSec=" ++ toString o.timeout] else [])
        ++ ["--"] ++ o.cmd,
      cwd := some workDir, envTMPDIR := some workDir, mode := .scoped }
  else
    { fullCmd := o.cmd, cwd := some workDir, envTMPDIR := some workDir, mode := .direct }

/-- The status and diagnostic messages `run` (cli.py) can emit, one
constructor per typer.echo call site. -/
inductive Msg
  | noCommand
  | workspace (dir : String)
  | limits (cpuQuota : String) (ram : String) (timeout : Int)
  | speedMode (size : String)
  | launching (mode : LaunchMode)
  | completed
  | exitedWith (rc : Int)
  | saved (n : Nat)
  | nothingCopied
  | cleaned
  | cleanupWarning
deriving DecidableEq

/-- Whether the echo call site passes err=True, directing the message to
the error stream. -/
def Msg.isErr : Msg → Bool
  | .noCommand => true
  | .exitedWith _ => true
  | .cleanupWarning => true
  | _ => false

/-- External facts one invocation observes: the capability probe result,
the child exit code returned by subprocess.run, the glob oracle for the
workspace, the initial destination contents, whether shutil.rmtree
succeeds, the generated run identity and the mkdtemp result. -/
structure World where
  hasSystemdRun : Bool
  childExit : Int
  globs : String → List FsMatch
  dest0 : DestState
  rmtreeOk : Bool
  runId : String
  baseDir : String

/-- How the invocation hands control back: a process exit code (via
typer.Exit) or an uncaught exception escaping `run`. -/
inductive Outcome
  | exit (code : Int)
  | uncaughtError
deriving DecidableEq

/-- Observable result of one `run` invocation. -/
structure RunResult where
  outcome : Outcome
  workspaceCreated : Bool
  workspaceExists : Bool
  msgs : List Msg
  destFinal : DestState
  copiedReported : Option Nat

/-- Workspace working directory: base_dir / "work". -/
def workDirOf (w : World) : String := w.baseDir ++ "/work"

/-- The status lines printed before the child is spawned (cli.py, the
echo calls of step 6): workspace path, chosen limits, the speed-mode line
whenever tmpfs was requested (whatever the launch mode), and the chosen
launch mode. -/
def preRunMsgs (w : World) (o : Options) : List Msg :=
  [Msg.workspace (workDirOf w), Msg.limits (cpu_quota_from_cpus o.cpus) o.ram o.timeout]
  ++ (if o.tmpfs ≠ "" then [Msg.speedMode o.tmpfs] else [])
  ++ [Msg.launching (buildPlan o w.hasSystemdRun w.runId (workDirOf w)).mode]

/-- The message following the child exit (cli.py, step 7): success note on
the output stream for code zero, otherwise the code on the error stream. -/
def rcMsgOf (rc : Int) : Msg := if rc = 0 then Msg.completed else Msg.exitedWith rc

/-- The message of the finally block (cli.py, step 9): the cleanup note
when shutil.rmtree succeeded, otherwise the caught warning. -/
def cleanupMsgOf (ok : Bool) : Msg := if ok then Msg.cleaned else Msg.cleanupWarning

/-- Embedding of the body of `run` (cli.py) after the workspace exists:
status messages, blocking child execution, harvest, the typer.Exit with
the child code, and the finally block that always attempts
shutil.rmtree(base_dir), downgrading a removal failure to a warning.
When a copy raises, the exception escapes `run` (the finally block still
runs) and the saved-count line is never printed. -/
def runBody (w : World) (o : Options) : RunResult :=
  match harvest w.runId w.globs (parsePatterns o.save) w.dest0 0 with
  | (d2, n2, true) =>
    { outcome := .exit w.childExit, workspaceCreated := true, workspaceExists := !w.rmtreeOk,
      msgs := preRunMsgs w o ++
        [rcMsgOf w.childExit,
         if parsePatterns o.save = [] then Msg.nothingCopied else Msg.saved n2,
         cleanupMsgOf w.rmtreeOk],
      destFinal := d2, copiedReported := some n2 }
  | (d2, _, false) =>
    { outcome := .uncaughtError, workspaceCreated := true, workspaceExists := !w.rmtreeOk,
      msgs := preRunMsgs w o ++ [rcMsgOf w.childExit, cleanupMsgOf w.rmtreeOk],
      destFinal := d2, copiedReported := none }

/-- Embedding of `run` (cli.py): the empty-command usage check precedes
workspace creation; otherwise the workspace is created and the body runs
under the cleanup finalizer. -/
def run (w : World) (o : Options) : RunResult :=
  if o.cmd = [] then
    { outcome := .exit 2, workspaceCreated := false, workspaceExists := false,
      msgs := [.noCommand], destFinal := w.dest0, copiedReported := none }
  else
    runBody w o

/-- Filtering out one key does not change whether a different key occurs. -/
theorem any_key_filter (d : DestState) (nm x : String) (hx : x ≠ nm) :
    ((d.filter (fun e => e.1 ≠ nm)).any (fun e => e.1 == x)) = d.any (fun e => e.1 == x) := by
  induction d with
  | nil => rfl
  | cons e d ih =>
    rw [List.filter_cons]
    by_cases he : e.1 = nm
    · rw [if_neg (by simp [he])]
      rw [ih, List.any_cons]
      have hex : (e.1 == x) = false := by
        rw [beq_eq_false_iff_ne, he]
        exact fun hh => hx hh.symm
      rw [hex, Bool.false_or]
    · rw [if_pos (by simp [he])]
      rw [List.any_cons, List.any_cons, ih]

/-- Writing a name into the destination makes that name exist, and leaves
existence of every other name unchanged. -/
theorem destExists_destWrite (d : DestState) (nm x : String) (c : Nat) :
    destExists (destWrite d nm c) x = ((x == nm) || destExists d x) := by
  by_cases hx : x = nm
  · subst hx
    simp [destExists, destWrite]
  · have h1 : (nm == x) = false := beq_eq_false_iff_ne.mpr (fun hh => hx hh.symm)
    have h2 : (x == nm) = false := beq_eq_false_iff_ne.mpr hx
    simp only [destExists, destWrite, List.any_cons, h1, h2, Bool.false_or,
      any_key_filter d nm x hx]

/-- Looking up the just-written name yields the just-written content. -/
theorem destLookup_destWrite_self (d : DestState) (nm : String) (c : Nat) :
    destLookup (destWrite d nm c) nm = some c := by
  simp [destLookup, destWrite, List.find?]

/-- The disambiguated name differs from the base name: it is one plus the
length of the run identity longer. -/
theorem altName_ne_name (m : FsMatch) (runId : String) :
    m.altName runId ≠ m.name := by
  intro h
  have hl := congrArg String.length h
  have hdash : ("-" : String).length = 1 := rfl
  simp [FsMatch.altName, FsMatch.name, String.length_append, hdash] at hl
  omega

/-- When every file-kind match is readable, the inner harvest loop runs to
completion (no copy raises). -/
theorem copyMatches_completes (runId : String) (ms : List FsMatch) (d : DestState) (n : Nat)
    (h : ∀ m ∈ ms, m.kind.is_file = true → m.readable = true) :
    (copyMatches runId ms d n).2.2 = true := by
  induction ms generalizing d n with
  | nil => rfl
  | cons m ms ih =>
    have hrest : ∀ m2 ∈ ms, m2.kind.is_file = true → m2.readable = true :=
      fun m2 hm2 => h m2 (by simp [hm2])
    by_cases hf : m.kind.is_file = true
    · have hr : m.readable = true := h m (by simp) hf
      rw [copyMatches]
      simp only [hf, if_true, hr]
      exact ih _ _ hrest
    · rw [copyMatches]
      simp only [Bool.not_eq_true] at hf
      simp only [hf, Bool.false_eq_true, if_false]
      exact ih _ _ hrest

/-- When every match of every pattern that is a file is readable, the whole
harvest runs to completion. -/
theorem harvest_completes (runId : String) (globs : String → List FsMatch)
    (ps : List String) (d : DestState) (n : Nat)
    (h : ∀ p ∈ ps, ∀ m ∈ globs p, m.kind.is_file = true → m.readable = true) :
    (harvest runId globs ps d n).2.2 = true := by
  induction ps generalizing d n with
  | nil => rfl
  | cons p ps ih =>
    rw [harvest]
    have hb := copyMatches_completes runId (globs p) d n (h p (by simp))
    cases hcm : copyMatches runId (globs p) d n with
    | mk d2 r =>
      cases r with
      | mk n2 b =>
        rw [hcm] at hb
        simp at hb
        subst hb
        simp only []
        exact ih _ _ (fun p2 hp2 => h p2 (by simp [hp2]))

/-- When every pattern expands to no match at all, the harvest is a no-op
reporting zero copies and leaving the destination untouched. -/
theorem harvest_empty_globs (runId : String) (globs : String → List FsMatch)
    (ps : List String) (d : DestState) (n : Nat)
    (h : ∀ p ∈ ps, globs p = []) :
    harvest runId globs ps d n = (d, n, true) := by
  induction ps with
  | nil => rfl
  | cons p ps ih =>
    rw [harvest, h p (by simp)]
    exact ih (fun p2 hp2 => h p2 (by simp [hp2]))

/-- C9: the CPU-to-quota translation multiplies the CPU count by 100,
truncates to an integer and appends a percent sign; in particular 1.0
gives "100%", 2.0 gives "200%", 0.5 gives "50%" and 0.0 gives "0%".
Floats are modelled as rationals; all four claimed inputs are exact in
binary floating point, so the model agrees with the source there. -/
theorem C9_cpu_quota_translation (q : ℚ) :
    cpu_quota_from_cpus q = toString (pyInt (q * 100)) ++ "%" ∧
    cpu_quota_from_cpus 1 = "100%" ∧
    cpu_quota_from_cpus 2 = "200%" ∧
    cpu_quota_from_cpus (1 / 2) = "50%" ∧
    cpu_quota_from_cpus 0 = "0%" := by
  refine ⟨rfl, ?_, ?_, ?_, ?_⟩
  · have h : pyInt ((1 : ℚ) * 100) = 100 := by norm_num [pyInt, Int.tdiv]
    unfold cpu_quota_from_cpus
    rw [h]
    decide
  · have h : pyInt ((2 : ℚ) * 100) = 200 := by norm_num [pyInt, Int.tdiv]
    unfold cpu_quota_from_cpus
    rw [h]
    decide
  · have h : pyInt ((1 / 2 : ℚ) * 100) = 50 := by norm_num [pyInt, Int.tdiv]
    unfold cpu_quota_from_cpus
    rw [h]
    decide
  · have h : pyInt ((0 : ℚ) * 100) = 0 := by norm_num [pyInt, Int.tdiv]
    unfold cpu_quota_from_cpus
    rw [h]
    decide

/-- C3: with an empty command vector the invocation exits with the
synthetic code 2, creates no workspace directory, leaves the destination
untouched, and reports the usage error on the error stream. -/
theorem C3_empty_command (w : World) (o : Options) (h : o.cmd = []) :
    (run w o).outcome = Outcome.exit 2 ∧
    (run w o).workspaceCreated = false ∧
    (run w o).workspaceExists = false ∧
    (run w o).msgs = [Msg.noCommand] ∧
    Msg.noCommand.isErr = true ∧
    (run w o).destFinal = w.dest0 := by
  simp [run, h, Msg.isErr]

/-- Shape facts about the body of a run that hold on every path: the
workspace was created, it is gone afterwards exactly when shutil.rmtree
succeeded, the cleanup message of the finally block is always emitted, and
the outcome is the child exit code when the harvest completed and an
uncaught exception otherwise. -/
theorem runBody_shape (w : World) (o : Options) :
    (runBody w o).workspaceCreated = true ∧
    (runBody w o).workspaceExists = !w.rmtreeOk ∧
    cleanupMsgOf w.rmtreeOk ∈ (runBody w o).msgs ∧
    (runBody w o).outcome =
      (if (harvest w.runId w.globs (parsePatterns o.save) w.dest0 0).2.2 = true
       then Outcome.exit w.childExit else Outcome.uncaughtError) := by
  unfold runBody
  cases hh : harvest w.runId w.globs (parsePatterns o.save) w.dest0 0 with
  | mk d2 r =>
    cases r with
    | mk n2 b =>
      cases b <;> simp

/-- The message list of a run body is the pre-spawn status lines followed
by the child-exit message, then (only when no copy raised) the save
report, then the cleanup message. -/
theorem runBody_msgs_shape (w : World) (o : Options) :
    (runBody w o).msgs = preRunMsgs w o ++
      [rcMsgOf w.childExit,
       if parsePatterns o.save = [] then Msg.nothingCopied
       else Msg.saved ((harvest w.runId w.globs (parsePatterns o.save) w.dest0 0).2.1),
       cleanupMsgOf w.rmtreeOk] ∨
    (runBody w o).msgs = preRunMsgs w o ++ [rcMsgOf w.childExit, cleanupMsgOf w.rmtreeOk] := by
  unfold runBody
  cases hh : harvest w.runId w.globs (parsePatterns o.save) w.dest0 0 with
  | mk d2 r =>
    cases r with
    | mk n2 b =>
      cases b
      · right
        simp
      · left
        simp

/-- Every pre-spawn status line goes to the output stream. -/
theorem mem_preRunMsgs_isErr (w : World) (o : Options) (m : Msg)
    (hm : m ∈ preRunMsgs w o) : m.isErr = false := by
  unfold preRunMsgs at hm
  rcases List.mem_append.1 hm with hm1 | hm2
  · rcases List.mem_append.1 hm1 with hm3 | hm4
    · rcases List.mem_cons.1 hm3 with h | h
      · subst h
        rfl
      · rcases List.mem_singleton.1 h with rfl
        rfl
    · split at hm4
      · rcases List.mem_singleton.1 hm4 with rfl
        rfl
      · exact absurd hm4 (List.not_mem_nil m)
  · rcases List.mem_singleton.1 hm2 with rfl
    rfl

/-- Classification of the two post-exit message slots shared by both
harvest outcomes. -/
theorem tail_msg_classify (w : World) (m : Msg) (he : m.isErr = true)
    (h : m = rcMsgOf w.childExit ∨ m = cleanupMsgOf w.rmtreeOk) :
    m = Msg.exitedWith w.childExit ∨ m = Msg.cleanupWarning := by
  rcases h with rfl | rfl
  · unfold rcMsgOf at he ⊢
    by_cases hrc : w.childExit = 0
    · rw [if_pos hrc] at he
      exact absurd he (by decide)
    · rw [if_neg hrc]
      left
      rfl
  · unfold cleanupMsgOf at he ⊢
    by_cases hok : w.rmtreeOk = true
    · rw [if_pos hok] at he
      exact absurd he (by decide)
    · rw [if_neg hok]
      right
      rfl

/-- The save-report slot is never an error-stream message. -/
theorem save_msg_not_err (c : Prop) [Decidable c] (k : Nat) :
    (if c then Msg.nothingCopied else Msg.saved k).isErr = false := by
  split <;> rfl

/-- Classification of everything a run can put on the error stream: the
usage error, the nonzero child exit report and the cleanup warning.  No
other diagnostic exists; in particular nothing warns that a requested
RAM disk was ignored. -/
theorem run_err_msgs (w : World) (o : Options) (m : Msg)
    (hm : m ∈ (run w o).msgs) (he : m.isErr = true) :
    m = Msg.noCommand ∨ m = Msg.exitedWith w.childExit ∨ m = Msg.cleanupWarning := by
  by_cases hc : o.cmd = []
  · rw [run, if_pos hc] at hm
    simp at hm
    exact Or.inl hm
  · rw [run, if_neg hc] at hm
    rcases runBody_msgs_shape w o with hs | hs
    · rw [hs] at hm
      rcases List.mem_append.1 hm with h1 | h2
      · exact absurd (mem_preRunMsgs_isErr w o m h1) (by simp [he])
      · rcases List.mem_cons.1 h2 with h | h
        · exact Or.inr (tail_msg_classify w m he (Or.inl h))
        · rcases List.mem_cons.1 h with h3 | h3
          · rw [h3, save_msg_not_err] at he
            exact absurd he Bool.false_ne_true
          · exact Or.inr (tail_msg_classify w m he (Or.inr (List.mem_singleton.1 h3)))
    · rw [hs] at hm
      rcases List.mem_append.1 hm with h1 | h2
      · exact absurd (mem_preRunMsgs_isErr w o m h1) (by simp [he])
      · rcases List.mem_cons.1 h2 with h | h
        · exact Or.inr (tail_msg_classify w m he (Or.inl h))
        · exact Or.inr (tail_msg_classify w m he (Or.inr (List.mem_singleton.1 h)))

/-- Concrete instantiation of the empty-command claim. -/
theorem C3_empty_command_witness :
    (run { hasSystemdRun := false, childExit := 0, globs := fun _ => [], dest0 := [],
           rmtreeOk := true, runId := "1a2b3c4d", baseDir := "/tmp/fossbox-w" }
         { cmd := [], cpus := 1, ram := "1G", timeout := 0, tmpfs := "", save := "" }).outcome
      = Outcome.exit 2 :=
  (C3_empty_command _ _ rfl).1

/-- C1: whenever a workspace is created (any non-empty command), its base
directory is removed before `run` returns, on success, on child nonzero
exit and on harvester exception (the theorem quantifies over every child
exit code and every harvest outcome); the directory survives exactly when
the removal itself failed, in which case a warning is emitted on the error
stream and the outcome is the same as in an otherwise identical run whose
removal succeeded, so the failure is never escalated. -/
theorem C1_cleanup_invariant (w : World) (o : Options) (h : o.cmd ≠ []) :
    (run w o).workspaceCreated = true ∧
    (run w o).workspaceExists = !w.rmtreeOk ∧
    (w.rmtreeOk = false →
      Msg.cleanupWarning ∈ (run w o).msgs ∧
      Msg.cleanupWarning.isErr = true ∧
      (run w o).outcome = (run { w with rmtreeOk := true } o).outcome ∧
      (run { w with rmtreeOk := true } o).workspaceExists = false) := by
  have hrun : run w o = runBody w o := by rw [run, if_neg h]
  have hrun2 : run { w with rmtreeOk := true } o = runBody { w with rmtreeOk := true } o := by
    rw [run, if_neg h]
  rw [hrun, hrun2]
  obtain ⟨hc1, he1, hm1, ho1⟩ := runBody_shape w o
  obtain ⟨hc2, he2, hm2, ho2⟩ := runBody_shape { w with rmtreeOk := true } o
  refine ⟨hc1, he1, fun hr => ⟨?_, rfl, ?_, ?_⟩⟩
  · rw [hr] at hm1
    simpa [cleanupMsgOf] using hm1
  · rw [ho1, ho2]
  · rw [he2]
    rfl

/-- Concrete instantiation of the cleanup invariant, at a run whose
directory removal fails. -/
theorem C1_cleanup_invariant_witness :
    Msg.cleanupWarning ∈
      (run { hasSystemdRun := true, childExit := 1, globs := fun _ => [], dest0 := [],
             rmtreeOk := false, runId := "1a2b3c4d", baseDir := "/tmp/fossbox-c1" }
           { cmd := ["echo", "hi"], cpus := 1, ram := "1G", timeout := 0, tmpfs := "",
             save := "" }).msgs :=
  ((C1_cleanup_invariant _ _ (by decide)).2.2 rfl).1

/-- Witnesses of the C2 counterexample: a matched regular file whose copy
raises (shutil.copy2 fails mid-copy). -/
def unreadableReport : FsMatch :=
  { stem := "report", suffix := ".txt", kind := .regularFile, readable := false, content := 7 }

/-- World of the C2 counterexample: no isolation service, child exits 0,
one save pattern matching the unreadable file. -/
def w2c : World :=
  { hasSystemdRun := false, childExit := 0, globs := fun _ => [unreadableReport],
    dest0 := [], rmtreeOk := true, runId := "1a2b3c4d", baseDir := "/tmp/fossbox-c2" }

/-- Options of the C2 counterexample. -/
def o2c : Options :=
  { cmd := ["sh", "-c", "true"], cpus := 1, ram := "1G", timeout := 0, tmpfs := "",
    save := "*.txt" }

/-- C2 as frozen is false: here the child terminates normally with code 0,
yet the invocation does not exit with the child code — the copy failure in
the harvest step escapes as an uncaught exception. -/
theorem C2_counterexample :
    w2c.childExit = 0 ∧ o2c.cmd ≠ [] ∧
    (run w2c o2c).outcome ≠ Outcome.exit w2c.childExit ∧
    (run w2c o2c).outcome = Outcome.uncaughtError := by
  refine ⟨rfl, by decide, by decide, by decide⟩

/-- C2 amended: for every non-empty command vector whose child terminates
normally, provided the harvest step raises no exception (every matched
file-kind entry is copyable), `run` exits with exactly the child exit
code. -/
theorem C2_exit_code_propagation (w : World) (o : Options) (h1 : o.cmd ≠ [])
    (h2 : ∀ p ∈ parsePatterns o.save, ∀ m ∈ w.globs p,
      m.kind.is_file = true → m.readable = true) :
    (run w o).outcome = Outcome.exit w.childExit := by
  rw [run, if_neg h1]
  obtain ⟨-, -, -, ho⟩ := runBody_shape w o
  rw [ho, if_pos (harvest_completes w.runId w.globs (parsePatterns o.save) w.dest0 0 h2)]

/-- World of the C2 witness. -/
def w2w : World :=
  { hasSystemdRun := true, childExit := 3, globs := fun _ => [], dest0 := [],
    rmtreeOk := true, runId := "1a2b3c4d", baseDir := "/tmp/fossbox-c2w" }

/-- Options of the C2 witness. -/
def o2w : Options :=
  { cmd := ["false"], cpus := 1, ram := "1G", timeout := 0, tmpfs := "", save := "" }

/-- Concrete instantiation of the amended exit-code propagation: the child
exits 3 and so does the run. -/
theorem C2_exit_code_propagation_witness :
    (run w2w o2w).outcome = Outcome.exit w2w.childExit :=
  C2_exit_code_propagation w2w o2w (by decide) (by decide)

/-- World of the C4 counterexample: isolation unavailable while a RAM disk
is requested. -/
def w4c : World :=
  { hasSystemdRun := false, childExit := 0, globs := fun _ => [], dest0 := [],
    rmtreeOk := true, runId := "1a2b3c4d", baseDir := "/tmp/fossbox-c4" }

/-- Options of the C4 counterexample. -/
def o4c : Options :=
  { cmd := ["echo", "hi"], cpus := 1, ram := "1G", timeout := 0, tmpfs := "256M",
    save := "" }

/-- C4 as frozen is false in its warning clause: with isolation unavailable
and a RAM disk requested the mode is indeed Direct, but the run emits no
error-stream message at all — there is no warning that the RAM-disk
request was ignored; instead a speed-mode status line is printed on the
output stream as though the tmpfs were active. -/
theorem C4_counterexample :
    (buildPlan o4c w4c.hasSystemdRun w4c.runId (workDirOf w4c)).mode = LaunchMode.direct ∧
    Msg.speedMode "256M" ∈ (run w4c o4c).msgs ∧
    (run w4c o4c).msgs.all (fun m => !m.isErr) = true := by
  refine ⟨by decide, by decide, by decide⟩

/-- C4 amended: launch-mode selection is a pure function of the pair
(isolation-available, ram-disk-requested), the four combinations mapping
to Direct, Direct, Scoped, Serviced; when the RAM disk is requested while
isolation is unavailable the result is still Direct, but no warning about
the ignored request is emitted: the only error-stream messages a run ever
produces are the usage error, the child exit report and the cleanup
warning. -/
theorem C4_mode_selection (o : Options) (useSystemd : Bool) (runId workDir : String)
    (w : World) :
    (useSystemd = false → (buildPlan o useSystemd runId workDir).mode = LaunchMode.direct) ∧
    (useSystemd = true → o.tmpfs = "" →
      (buildPlan o useSystemd runId workDir).mode = LaunchMode.scoped) ∧
    (useSystemd = true → o.tmpfs ≠ "" →
      (buildPlan o useSystemd runId workDir).mode = LaunchMode.serviced) ∧
    (∀ m ∈ (run w o).msgs, m.isErr = true →
      m = Msg.noCommand ∨ m = Msg.exitedWith w.childExit ∨ m = Msg.cleanupWarning) := by
  refine ⟨?_, ?_, ?_, run_err_msgs w o⟩
  · intro h
    subst h
    simp [buildPlan]
  · intro h ht
    subst h
    simp [buildPlan, ht]
  · intro h ht
    subst h
    simp [buildPlan, ht]

/-- Concrete instantiation of the amended mode-selection claim, covering
the degraded combination: RAM disk requested, isolation unavailable,
result Direct. -/
theorem C4_mode_selection_witness :
    (buildPlan o4c false "1a2b3c4d" "/tmp/fossbox-c4/work").mode = LaunchMode.direct :=
  (C4_mode_selection o4c false "1a2b3c4d" "/tmp/fossbox-c4/work" w4c).1 rfl

/-- C5: in Scoped and Serviced modes the executed vector is
[launcher, user-scope-flag, limit-params, the separator, user command];
the limit params always include the RAM cap (MemoryMax) and the CPU quota
(CPUQuota); the timeout parameter (RuntimeMaxSec) is appended exactly when
timeout > 0 (the source writes the Scoped condition as
`timeout and timeout > 0`, which is equivalent); Serviced mode additionally
carries the private-mount directive and its own working-directory and
scratch-path environment parameters, and hands neither cwd nor env to the
spawn call. -/
theorem C5_command_vector_assembly (o : Options) (runId workDir : String) :
    (o.tmpfs = "" →
      buildPlan o true runId workDir =
        { fullCmd :=
            ["systemd-run", "--user", "--scope",
             "-p", "MemoryMax=" ++ o.ram,
             "-p", "CPUQuota=" ++ cpu_quota_from_cpus o.cpus]
            ++ (if 0 < o.timeout then ["-p", "RuntimeMaxSec=" ++ toString o.timeout] else [])
            ++ ["--"] ++ o.cmd,
          cwd := some workDir, envTMPDIR := some workDir, mode := LaunchMode.scoped }) ∧
    (o.tmpfs ≠ "" →
      buildPlan o true runId workDir =
        { fullCmd :=
            ["systemd-run", "--user", "--unit", "fossbox-" ++ runId, "--wait", "--collect",
             "-p", "MemoryMax=" ++ o.ram,
             "-p", "CPUQuota=" ++ cpu_quota_from_cpus o.cpus,
             "-p", "PrivateTmp=yes",
             "-p", "TemporaryFileSystem=/tmp:rw,size=" ++ o.tmpfs,
             "-p", "WorkingDirectory=" ++ workDir,
             "-p", "Environment=TMPDIR=/tmp"]
            ++ (if 0 < o.timeout then ["-p", "RuntimeMaxSec=" ++ toString o.timeout] else [])
            ++ ["--"] ++ o.cmd,
          cwd := none, envTMPDIR := none, mode := LaunchMode.serviced }) := by
  constructor
  · intro ht
    have htq : (o.timeout ≠ 0 ∧ 0 < o.timeout) ↔ (0 < o.timeout) := by omega
    simp [buildPlan, ht, htq]
  · intro ht
    simp [buildPlan, ht]

/-- Options of the Scoped half of the C5 witness. -/
def o5a : Options :=
  { cmd := ["nmap", "-sV"], cpus := 2, ram := "512M", timeout := 60, tmpfs := "", save := "" }

/-- Options of the Serviced half of the C5 witness. -/
def o5b : Options :=
  { cmd := ["nmap"], cpus := 1, ram := "1G", timeout := 0, tmpfs := "500M", save := "" }

/-- Concrete instantiation of the vector-assembly claim in both isolation
modes. -/
theorem C5_command_vector_assembly_witness :
    (buildPlan o5a true "1a2b3c4d" "/ws/work").mode = LaunchMode.scoped ∧
    (buildPlan o5b true "1a2b3c4d" "/ws/work").cwd = none := by
  constructor
  · rw [(C5_command_vector_assembly o5a "1a2b3c4d" "/ws/work").1 rfl]
  · rw [(C5_command_vector_assembly o5b "1a2b3c4d" "/ws/work").2 (by decide)]

/-- C6: a matched regular file goes to the destination under its base
name; when that name already exists there, the copy instead goes to the
name with the run identity spliced between stem and extension, after which
both the pre-existing file and the new name are present and the two names
are distinct. -/
theorem C6_collision_rename (runId : String) (m : FsMatch) (ms : List FsMatch)
    (d : DestState) (n : Nat)
    (hf : m.kind = EntryKind.regularFile) (hr : m.readable = true) :
    (destExists d m.name = false →
      copyMatches runId (m :: ms) d n =
        copyMatches runId ms (destWrite d m.name m.content) (n + 1)) ∧
    (destExists d m.name = true →
      copyMatches runId (m :: ms) d n =
        copyMatches runId ms (destWrite d (m.altName runId) m.content) (n + 1) ∧
      destExists (destWrite d (m.altName runId) m.content) m.name = true ∧
      destExists (destWrite d (m.altName runId) m.content) (m.altName runId) = true ∧
      m.altName runId ≠ m.name) := by
  have hif : m.kind.is_file = true := by
    rw [hf]
    rfl
  constructor
  · intro hex
    rw [copyMatches]
    simp [hif, hr, hex]
  · intro hex
    refine ⟨?_, ?_, ?_, altName_ne_name m runId⟩
    · rw [copyMatches]
      simp [hif, hr, hex]
    · rw [destExists_destWrite]
      simp [hex]
    · rw [destExists_destWrite]
      simp

/-- The regular file used by the C6 and C10 witnesses. -/
def reportFile : FsMatch :=
  { stem := "report", suffix := ".txt", kind := .regularFile, readable := true, content := 5 }

/-- Destination of the C6 witness: report.txt already present. -/
def d6 : DestState := [("report.txt", 0)]

/-- Concrete instantiation of the collision rule: saving report.txt into a
destination already holding report.txt produces report-1a2b3c4d.txt, and
both files are present and distinct afterwards. -/
theorem C6_collision_rename_witness :
    (copyMatches "1a2b3c4d" [reportFile] d6 0 =
      copyMatches "1a2b3c4d" [] (destWrite d6 (reportFile.altName "1a2b3c4d") reportFile.content) 1) ∧
    destExists (destWrite d6 (reportFile.altName "1a2b3c4d") reportFile.content)
      reportFile.name = true ∧
    destExists (destWrite d6 (reportFile.altName "1a2b3c4d") reportFile.content)
      (reportFile.altName "1a2b3c4d") = true ∧
    reportFile.altName "1a2b3c4d" ≠ reportFile.name :=
  (C6_collision_rename "1a2b3c4d" reportFile [] d6 0 rfl rfl).2 (by decide)

/-- The symbolic link used by the C7 counterexample: a link that resolves
to a regular file, which pathlib Path.is_file treats as a file. -/
def symlinkReport : FsMatch :=
  { stem := "s", suffix := ".txt", kind := .symlinkToRegularFile, readable := true, content := 3 }

/-- C7 as frozen is false for symbolic links: Path.is_file follows links,
so a symlink resolving to a regular file is copied and does contribute to
the copied count, rather than being skipped. -/
theorem C7_counterexample :
    symlinkReport.kind = EntryKind.symlinkToRegularFile ∧
    (copyMatches "1a2b3c4d" [symlinkReport] [] 0).2.1 = 1 ∧
    destExists (copyMatches "1a2b3c4d" [symlinkReport] [] 0).1 "s.txt" = true := by
  refine ⟨rfl, by decide, by decide⟩

/-- C7 amended: only entries satisfying Path.is_file are copied — regular
files and symbolic links resolving to regular files; directories, special
files, broken links and links to directories are skipped silently and do
not contribute to the count. -/
theorem C7_plain_file_filter (runId : String) (m : FsMatch) (ms : List FsMatch)
    (d : DestState) (n : Nat) :
    (EntryKind.is_file .regularFile = true ∧
     EntryKind.is_file .symlinkToRegularFile = true ∧
     EntryKind.is_file .symlinkToDirectory = false ∧
     EntryKind.is_file .brokenSymlink = false ∧
     EntryKind.is_file .directory = false ∧
     EntryKind.is_file .specialFile = false) ∧
    (m.kind.is_file = false → copyMatches runId (m :: ms) d n = copyMatches runId ms d n) := by
  refine ⟨by decide, fun hk => ?_⟩
  rw [copyMatches]
  simp [hk]

/-- The directory entry used by the C7 witness. -/
def dirEntry : FsMatch :=
  { stem := "logs", suffix := "", kind := .directory, readable := true, content := 0 }

/-- Concrete instantiation of the amended filter claim: a directory match
is skipped, leaving state and count unchanged. -/
theorem C7_plain_file_filter_witness :
    copyMatches "1a2b3c4d" [dirEntry] [] 0 = copyMatches "1a2b3c4d" [] [] 0 :=
  (C7_plain_file_filter "1a2b3c4d" dirEntry [] [] 0).2 rfl

/-- World of the C8 counterexample: one pattern matching one regular file
whose copy raises. -/
def w8c : World :=
  { hasSystemdRun := true, childExit := 5, globs := fun _ => [unreadableReport],
    dest0 := [], rmtreeOk := true, runId := "9z8y7x6w", baseDir := "/tmp/fossbox-c8" }

/-- Options of the C8 counterexample. -/
def o8c : Options :=
  { cmd := ["sh"], cpus := 1, ram := "1G", timeout := 0, tmpfs := "", save := "*.txt" }

/-- C8 as frozen is false for mid-copy failures: a file that cannot be
copied does abort the run — the exception escapes, the exit code is no
longer the child's, and no count at all is reported. -/
theorem C8_counterexample :
    (run w8c o8c).outcome = Outcome.uncaughtError ∧
    (run w8c o8c).outcome ≠ Outcome.exit w8c.childExit ∧
    (run w8c o8c).copiedReported = none := by
  refine ⟨by decide, by decide, by decide⟩

/-- C8 amended: a pattern that matches nothing is non-fatal — the run
still exits with the child code and accurately reports zero copies,
leaving the destination untouched; a copy failure, however, escapes as an
uncaught exception: the run aborts (the exit code is no longer the
child's), no count is reported, and only the workspace cleanup of the
finally block still takes place. -/
theorem C8_harvest_failures (w : World) (o : Options) (h1 : o.cmd ≠ []) :
    ((∀ p ∈ parsePatterns o.save, w.globs p = []) →
      (run w o).outcome = Outcome.exit w.childExit ∧
      (run w o).copiedReported = some 0 ∧
      (run w o).destFinal = w.dest0) ∧
    ((harvest w.runId w.globs (parsePatterns o.save) w.dest0 0).2.2 = false →
      (run w o).outcome = Outcome.uncaughtError ∧
      (run w o).copiedReported = none ∧
      (run w o).workspaceExists = !w.rmtreeOk) := by
  have hrun : run w o = runBody w o := by rw [run, if_neg h1]
  rw [hrun]
  constructor
  · intro hp
    have hh := harvest_empty_globs w.runId w.globs (parsePatterns o.save) w.dest0 0 hp
    unfold runBody
    rw [hh]
    simp
  · intro hfail
    unfold runBody
    cases hh : harvest w.runId w.globs (parsePatterns o.save) w.dest0 0 with
    | mk d2 r =>
      cases r with
      | mk n2 b =>
        rw [hh] at hfail
        simp at hfail
        subst hfail
        simp

/-- World of the C8 witness: a pattern that matches nothing. -/
def w8w : World :=
  { hasSystemdRun := true, childExit := 7, globs := fun _ => [], dest0 := [],
    rmtreeOk := true, runId := "1a2b3c4d", baseDir := "/tmp/fossbox-c8w" }

/-- Options of the C8 witness. -/
def o8w : Options :=
  { cmd := ["true"], cpus := 1, ram := "1G", timeout := 0, tmpfs := "", save := "*.xml" }

/-- Concrete instantiation of the amended harvest-failure claim: the
pattern matches nothing, the run exits with the child code 7 and reports
zero copies. -/
theorem C8_harvest_failures_witness :
    (run w8w o8w).outcome = Outcome.exit w8w.childExit ∧
    (run w8w o8w).copiedReported = some 0 :=
  have h := (C8_harvest_failures w8w o8w (by decide)).1 (by decide)
  ⟨h.1, h.2.1⟩

/-- C10: when both the base name and the disambiguated name already exist
in the destination, the fallback is applied exactly once — the copy goes
to the disambiguated name without any further existence check, silently
replacing the file of that name; the copy succeeds and is counted. -/
theorem C10_collision_fallback_overwrites (runId : String) (m : FsMatch) (ms : List FsMatch)
    (d : DestState) (n : Nat)
    (hf : m.kind = EntryKind.regularFile) (hr : m.readable = true)
    (h1 : destExists d m.name = true) (h2 : destExists d (m.altName runId) = true) :
    copyMatches runId (m :: ms) d n =
      copyMatches runId ms (destWrite d (m.altName runId) m.content) (n + 1) ∧
    destLookup (destWrite d (m.altName runId) m.content) (m.altName runId) = some m.content := by
  have hif : m.kind.is_file = true := by
    rw [hf]
    rfl
  constructor
  · rw [copyMatches]
    simp [hif, hr, h1]
  · exact destLookup_destWrite_self d (m.altName runId) m.content

/-- Destination of the C10 witness: both report.txt and the disambiguated
report-1a2b3c4d.txt are already present, the latter with content tag 1. -/
def d10 : DestState := [("report.txt", 0), ("report-1a2b3c4d.txt", 1)]

/-- Concrete instantiation of the double-collision claim: the new copy
lands on report-1a2b3c4d.txt, whose content is now the source's. -/
theorem C10_collision_fallback_overwrites_witness :
    (copyMatches "1a2b3c4d" [reportFile] d10 0 =
      copyMatches "1a2b3c4d" []
        (destWrite d10 (reportFile.altName "1a2b3c4d") reportFile.content) 1) ∧
    destLookup (destWrite d10 (reportFile.altName "1a2b3c4d") reportFile.content)
      (reportFile.altName "1a2b3c4d") = some reportFile.content :=
  C10_collision_fallback_overwrites "1a2b3c4d" reportFile [] d10 0 rfl rfl
    (by decide) (by decide)

end Fossbox
